import Mathlib

/-!
Verification of the unity-cs-monitoring-lambda health-check pipeline
(`src/lambda/lambda_function.py` and `src/fetch_all.py`).

The Python code is shallowly embedded: every external collaborator
(SSM parameter store, Cognito identity provider, HTTP client, S3 object
store, JSON parser, clock) is passed in as an explicit pure oracle, and
each Python function becomes a Lean function over those oracles.
Python dictionaries are modelled as insertion-ordered association lists
with Python's update-in-place / append-at-end semantics.  Python
exceptions become `Except String`.
-/

namespace Unity

/-! ## Python dictionaries (insertion-ordered association lists) -/

/-- First-match lookup, i.e. Python `d[k]` / `d.get(k)` on a dict whose
keys are unique (as every dict built by this code is). -/
def alookup {β : Type} : List (String × β) → String → Option β
  | [], _ => none
  | (k', v) :: rest, k => if k' = k then some v else alookup rest k

/-- Python `d[k] = v`: if `k` is already a key its value is replaced in
place (position preserved), otherwise the pair is appended at the end. -/
def dictInsert {β : Type} : List (String × β) → String → β → List (String × β)
  | [], k, v => [(k, v)]
  | (k', v') :: rest, k, v =>
    if k' = k then (k, v) :: rest else (k', v') :: dictInsert rest k v

/-- Python `base.update(upd)` and `\x7b**base, **upd\x7d`: insert every pair of
`upd` into `base`, left to right. -/
def dictUpdate {β : Type} (base upd : List (String × β)) : List (String × β) :=
  upd.foldl (fun d kv => dictInsert d kv.1 kv.2) base

/-- The keys of a dict, in iteration order. -/
def keysOf {β : Type} (d : List (String × β)) : List String := d.map Prod.fst

/-- The keys of `ks` that are not keys of `banned` (used to state the
iteration order of a Python dict merge). -/
def keysNotIn (ks banned : List String) : List String :=
  ks.filter (fun k => decide (k ∉ banned))

/-- A resolved parameter mapping: SSM parameter name to value string. -/
abbrev ParamDict := List (String × String)

/-! ## JSON values (results of `json.loads`) -/

/-- A parsed JSON value.  `obj` fields are in insertion order with unique
keys, as produced by Python's `json.loads`. -/
inductive JVal where
  | null
  | bool (b : Bool)
  | num (n : Int)
  | str (s : String)
  | arr (elems : List JVal)
  | obj (fields : List (String × JVal))

/-- Python `str.startswith`: does `p` occur as a prefix of `s`? -/
def pyStartswith (p s : String) : Bool := p.data.isPrefixOf s.data

/-- Python `f"..."` interpolation of a value that may be `None`. -/
def pyFormat : Option String → String
  | some s => s
  | none => "None"

/-! ## SSM client oracle and `get_ssm_parameter_value` -/

/-- The shape of a boto3 `get_parameters` response: the resolved
`(Name, Value)` pairs and the invalid (unresolvable) names.  The code
only logs `InvalidParameters`; they never enter the result. -/
structure GetParametersResponse where
  Parameters : List (String × String)
  InvalidParameters : List String

/-- Oracle for the boto3 SSM client: `get_parameter` (single name) and
`get_parameters` (batch).  `Except.error` models a raised exception. -/
structure SsmClient where
  getParameter : String → Except String String
  getParameters : List String → Except String GetParametersResponse

/-- `max_params_per_call` from the source. -/
def max_params_per_call : Nat := 10

/-- Fuel-indexed chunking; `chunksFuel l.length l` is the list of slices
`l[i : i+10]` for `i = 0, 10, 20, ...` exactly as produced by
`range(0, len(l), 10)`. -/
def chunksFuel {α : Type} : Nat → List α → List (List α)
  | 0, _ => []
  | _, [] => []
  | fuel + 1, a :: rest => (a :: rest.take 9) :: chunksFuel fuel (rest.drop 9)

/-- The successive 10-element slices of `l`, in order. -/
def chunks10 {α : Type} (l : List α) : List (List α) := chunksFuel l.length l

/-- The loop body of `get_ssm_parameter_value`: issue one `get_parameters`
call per chunk, merging successful responses into the accumulator and
skipping chunks whose call raised.  Also returns the list of issued
calls (each element is the `Names` argument of one call), in order. -/
def ssmLookupLoop (ssm : SsmClient) : List (List String) → ParamDict →
    ParamDict × List (List String)
  | [], acc => (acc, [])
  | chunk :: rest, acc =>
    let acc' :=
      match ssm.getParameters chunk with
      | .ok resp => dictUpdate acc resp.Parameters
      | .error _ => acc
    let out := ssmLookupLoop ssm rest acc'
    (out.1, chunk :: out.2)

/-- `get_ssm_parameter_value(parameter_names, shared)`.  Returns the
resolved mapping together with the list of `get_parameters` calls
issued (instrumentation for the call-counting and rewriting claims).
When `shared` is true the account-id parameter is resolved first; on
failure the function returns an empty mapping having issued no batch
call; on success every requested name is rewritten to its cross-account
ARN before the chunked lookup. -/
def get_ssm_parameter_value (ssm : SsmClient) (parameter_names : List String)
    (shared : Bool) : ParamDict × List (List String) :=
  if shared then
    match ssm.getParameter "/unity/shared-services/aws/account" with
    | .error _ => ([], [])
    | .ok account_id =>
      let rewritten := parameter_names.map
        (fun name => "arn:aws:ssm:us-west-2:" ++ account_id ++ ":parameter" ++ name)
      ssmLookupLoop ssm (chunks10 rewritten) []
  else
    ssmLookupLoop ssm (chunks10 parameter_names) []

/-- The per-chunk result mappings of the successful batch calls, in call
order (errored chunks omitted). -/
def perChunkResults (ssm : SsmClient) (chunks : List (List String)) :
    List ParamDict :=
  chunks.filterMap (fun c =>
    match ssm.getParameters c with
    | .ok resp => some resp.Parameters
    | .error _ => none)

/-- Left-to-right union of a list of mappings (later entries override). -/
def dictUnion (ds : List ParamDict) : ParamDict := ds.foldl dictUpdate []

/-! ## Chunking lemmas -/

theorem chunksFuel_flatten {α : Type} :
    ∀ (fuel : Nat) (l : List α), l.length ≤ fuel →
      (chunksFuel fuel l).flatten = l := by
  intro fuel
  induction fuel with
  | zero =>
    intro l hl
    have : l = [] := List.eq_nil_of_length_eq_zero (Nat.le_zero.mp hl)
    subst this; simp [chunksFuel]
  | succ fuel ih =>
    intro l hl
    match l with
    | [] => simp [chunksFuel]
    | a :: rest =>
      have hlen : (rest.drop 9).length ≤ fuel := by
        simp only [List.length_drop]
        simp only [List.length_cons] at hl
        omega
      simp only [chunksFuel, List.flatten_cons]
      rw [ih _ hlen]
      simp [List.take_append_drop]

theorem chunksFuel_length {α : Type} :
    ∀ (fuel : Nat) (l : List α), l.length ≤ fuel →
      (chunksFuel fuel l).length = (l.length + 9) / 10 := by
  intro fuel
  induction fuel with
  | zero =>
    intro l hl
    have : l = [] := List.eq_nil_of_length_eq_zero (Nat.le_zero.mp hl)
    subst this; simp [chunksFuel]
  | succ fuel ih =>
    intro l hl
    match l with
    | [] => simp [chunksFuel]
    | a :: rest =>
      have hlen : (rest.drop 9).length ≤ fuel := by
        simp only [List.length_drop]
        simp only [List.length_cons] at hl
        omega
      simp only [chunksFuel, List.length_cons]
      rw [ih _ hlen]
      simp only [List.length_drop]
      have h1 : rest.length + 1 + 9 = rest.length + 10 := by omega
      rw [h1, Nat.add_div_right _ (by norm_num)]
      congr 1
      rcases le_or_lt rest.length 9 with h9 | h9
      · have h0 : rest.length - 9 = 0 := Nat.sub_eq_zero_of_le h9
        rw [h0, Nat.div_eq_of_lt (by norm_num), Nat.div_eq_of_lt (by omega)]
      · have h0 : rest.length - 9 + 9 = rest.length := by omega
        rw [h0]

theorem chunksFuel_mem_length_le {α : Type} :
    ∀ (fuel : Nat) (l : List α) (c : List α), l.length ≤ fuel →
      c ∈ chunksFuel fuel l → c.length ≤ 10 := by
  intro fuel
  induction fuel with
  | zero => intro l c _ hc; simp [chunksFuel] at hc
  | succ fuel ih =>
    intro l c hl hc
    match l with
    | [] => simp [chunksFuel] at hc
    | a :: rest =>
      simp only [chunksFuel, List.mem_cons] at hc
      rcases hc with hc | hc
      · subst hc
        simp only [List.length_cons, List.length_take]
        omega
      · have hlen : (rest.drop 9).length ≤ fuel := by
          simp only [List.length_drop]
          simp only [List.length_cons] at hl
          omega
        exact ih (rest.drop 9) c hlen hc

theorem chunks10_flatten {α : Type} (l : List α) : (chunks10 l).flatten = l :=
  chunksFuel_flatten l.length l (Nat.le_refl _)

theorem chunks10_length {α : Type} (l : List α) :
    (chunks10 l).length = (l.length + 9) / 10 :=
  chunksFuel_length l.length l (Nat.le_refl _)

theorem chunks10_mem_length_le {α : Type} (l : List α) (c : List α)
    (hc : c ∈ chunks10 l) : c.length ≤ 10 :=
  chunksFuel_mem_length_le l.length l c (Nat.le_refl _) hc

/-! ## Lemmas about the lookup loop -/

theorem ssmLookupLoop_calls (ssm : SsmClient) :
    ∀ (chunks : List (List String)) (acc : ParamDict),
      (ssmLookupLoop ssm chunks acc).2 = chunks := by
  intro chunks
  induction chunks with
  | nil => intro acc; rfl
  | cons chunk rest ih =>
    intro acc
    simp only [ssmLookupLoop]
    rw [ih]

theorem ssmLookupLoop_map (ssm : SsmClient) :
    ∀ (chunks : List (List String)) (acc : ParamDict),
      (ssmLookupLoop ssm chunks acc).1 =
        (perChunkResults ssm chunks).foldl dictUpdate acc := by
  intro chunks
  induction chunks with
  | nil => intro acc; rfl
  | cons chunk rest ih =>
    intro acc
    simp only [ssmLookupLoop, perChunkResults, List.filterMap_cons]
    cases hresp : ssm.getParameters chunk with
    | ok resp => simp only [List.foldl_cons]; exact ih _
    | error e => exact ih _

/-! ## Association-list (Python dict) lemmas -/

theorem alookup_eq_none_iff {β : Type} (d : List (String × β)) (k : String) :
    alookup d k = none ↔ k ∉ keysOf d := by
  induction d with
  | nil => simp [alookup, keysOf]
  | cons kv rest ih =>
    obtain ⟨k', v⟩ := kv
    simp only [alookup, keysOf, List.map_cons, List.mem_cons]
    by_cases h : k' = k
    · subst h
      simp
    · simp only [if_neg h]
      rw [ih]
      simp only [keysOf]
      constructor
      · intro hnot hmem
        rcases hmem with hmem | hmem
        · exact h hmem.symm
        · exact hnot hmem
      · intro hnot hmem
        exact hnot (Or.inr hmem)

theorem alookup_dictInsert {β : Type} (d : List (String × β)) (k : String)
    (v : β) (k' : String) :
    alookup (dictInsert d k v) k' = if k = k' then some v else alookup d k' := by
  induction d with
  | nil => simp [dictInsert, alookup]
  | cons kv rest ih =>
    obtain ⟨k0, v0⟩ := kv
    simp only [dictInsert]
    by_cases h0 : k0 = k
    · subst h0
      by_cases h1 : k0 = k'
      · subst h1
        simp [alookup]
      · simp [alookup, if_neg h1, if_neg h1]
    · simp only [if_neg h0, alookup]
      by_cases h1 : k0 = k'
      · subst h1
        have h2 : ¬ k = k0 := fun h => h0 h.symm
        simp [if_neg h2]
      · simp only [if_neg h1]
        exact ih

theorem keysOf_dictInsert {β : Type} (d : List (String × β)) (k : String) (v : β) :
    keysOf (dictInsert d k v) =
      if k ∈ keysOf d then keysOf d else keysOf d ++ [k] := by
  induction d with
  | nil => simp [dictInsert, keysOf]
  | cons kv rest ih =>
    obtain ⟨k0, v0⟩ := kv
    by_cases h0 : k0 = k
    · subst h0
      simp [dictInsert, keysOf]
    · have hcons : keysOf ((k0, v0) :: rest) = k0 :: keysOf rest := rfl
      have hins : keysOf (dictInsert ((k0, v0) :: rest) k v) =
          k0 :: keysOf (dictInsert rest k v) := by
        simp [dictInsert, if_neg h0, keysOf]
      rw [hins, hcons, ih]
      by_cases hmem : k ∈ keysOf rest
      · rw [if_pos hmem, if_pos (List.mem_cons_of_mem k0 hmem)]
      · have hnot : k ∉ k0 :: keysOf rest := by
          intro hk
          rcases List.mem_cons.mp hk with h | h
          · exact h0 h.symm
          · exact hmem h
        rw [if_neg hmem, if_neg hnot, List.cons_append]

theorem nodup_keysOf_dictInsert {β : Type} (d : List (String × β)) (k : String)
    (v : β) (hd : (keysOf d).Nodup) : (keysOf (dictInsert d k v)).Nodup := by
  rw [keysOf_dictInsert]
  by_cases hmem : k ∈ keysOf d
  · rw [if_pos hmem]; exact hd
  · rw [if_neg hmem]
    simp only [List.nodup_append, List.nodup_cons, List.nodup_nil]
    exact ⟨hd, by simp, by simpa using hmem⟩

theorem dictUpdate_nil {β : Type} (d : List (String × β)) : dictUpdate d [] = d := rfl

theorem dictUpdate_cons {β : Type} (d : List (String × β)) (k : String) (v : β)
    (u : List (String × β)) :
    dictUpdate d ((k, v) :: u) = dictUpdate (dictInsert d k v) u := rfl

theorem nodup_keysOf_dictUpdate {β : Type} (u : List (String × β)) :
    ∀ d : List (String × β), (keysOf d).Nodup → (keysOf (dictUpdate d u)).Nodup := by
  induction u with
  | nil => intro d hd; exact hd
  | cons kv rest ih =>
    intro d hd
    obtain ⟨k, v⟩ := kv
    rw [dictUpdate_cons]
    exact ih _ (nodup_keysOf_dictInsert d k v hd)

theorem alookup_dictUpdate {β : Type} (u : List (String × β)) :
    ∀ (d : List (String × β)) (k : String), (keysOf u).Nodup →
      alookup (dictUpdate d u) k = (alookup u k).or (alookup d k) := by
  induction u with
  | nil => intro d k _; rfl
  | cons kv rest ih =>
    intro d k hu
    obtain ⟨k0, v0⟩ := kv
    simp only [keysOf, List.map_cons, List.nodup_cons] at hu
    rw [dictUpdate_cons, ih _ k hu.2]
    by_cases h0 : k0 = k
    · subst h0
      have hnone : alookup rest k0 = none := by
        rw [alookup_eq_none_iff]
        exact hu.1
      rw [hnone]
      simp [alookup, alookup_dictInsert]
    · simp only [alookup, if_neg h0]
      cases hrest : alookup rest k with
      | some v => simp [Option.or]
      | none => simp [Option.or, alookup_dictInsert, if_neg h0]

theorem keysOf_dictUpdate {β : Type} (u : List (String × β)) :
    ∀ d : List (String × β), (keysOf u).Nodup →
      keysOf (dictUpdate d u) = keysOf d ++ keysNotIn (keysOf u) (keysOf d) := by
  induction u with
  | nil => intro d _; simp [dictUpdate_nil, keysNotIn, keysOf]
  | cons kv rest ih =>
    intro d hu
    obtain ⟨k0, v0⟩ := kv
    have hcons : keysOf ((k0, v0) :: rest) = k0 :: keysOf rest := rfl
    rw [hcons] at hu ⊢
    have hu1 : k0 ∉ keysOf rest := (List.nodup_cons.mp hu).1
    have hu2 : (keysOf rest).Nodup := (List.nodup_cons.mp hu).2
    rw [dictUpdate_cons, ih _ hu2, keysOf_dictInsert]
    unfold keysNotIn
    rw [List.filter_cons]
    by_cases hmem : k0 ∈ keysOf d
    · rw [if_pos hmem, decide_eq_false (fun h => h hmem)]
      simp
    · rw [if_neg hmem, decide_eq_true hmem]
      have hfilter :
          (keysOf rest).filter (fun k => decide (k ∉ keysOf d ++ [k0])) =
            (keysOf rest).filter (fun k => decide (k ∉ keysOf d)) := by
        apply List.filter_congr
        intro k hk
        have hne : k ≠ k0 := by
          intro h
          subst h
          exact hu1 hk
        simp [List.mem_append, hne]
      rw [hfilter]
      simp

/-! ## `fetch_health_status_ssm_values` (lambda) and
`fetch_services_health_status` (fetch_all.py) -/

/-- Oracle for the `describe_parameters` paginator: given the
`BeginsWith` filter value and the `Shared` flag, the sequence of result
pages, each page being the list of parameter names it carries. -/
abbrev PageOracle := String → Bool → List (List String)

/-- `fetch_health_status_ssm_values(shared_ssm, project, venue)` from
`lambda_function.py`: choose the prefix from the flag, walk every page,
and keep (in order) each name that starts with the prefix. -/
def fetch_health_status_ssm_values (describePages : PageOracle)
    (shared_ssm : Bool) (project venue : Option String) : List String :=
  let pfx :=
    if shared_ssm then "/unity/shared-services/component/"
    else "/unity/" ++ pyFormat project ++ "/" ++ pyFormat venue ++ "/component/"
  ((describePages pfx shared_ssm).flatten).filter (fun name => pyStartswith pfx name)

/-- `fetch_services_health_status(shared_ssm)` from `fetch_all.py`: the
older variant with the `/unity/healthCheck/` prefix family. -/
def fetch_services_health_status (describePages : PageOracle)
    (shared_ssm : Bool) : List String :=
  let pfx :=
    if shared_ssm then "/unity/healthCheck/shared-services/"
    else "/unity/healthCheck/"
  ((describePages pfx shared_ssm).flatten).filter (fun name => pyStartswith pfx name)

/-! ## `create_cognito_client` -/

/-- Oracle for the Cognito `initiate_auth` call: username, password and
client id in; the `AuthenticationResult.AccessToken` out (or a raised
error). -/
structure CognitoClient where
  initiateAuth : String → String → String → Except String String

/-- Python `d[k]` on a dict: the value, or a raised `KeyError`. -/
def dictGetE (d : ParamDict) (k : String) : Except String String :=
  match alookup d k with
  | some v => Except.ok v
  | none => Except.error ("KeyError: " ++ k)

/-- `create_cognito_client(cognito_info)`: look the three credential
parameters up in the mapping (a missing key raises before the provider
is called), then perform the single `initiate_auth` call.  The second
component records the `initiate_auth` calls performed (at most one). -/
def create_cognito_client (client : CognitoClient) (cognito_info : ParamDict) :
    Except String String × List (String × String × String) :=
  match dictGetE cognito_info "/unity/shared-services/cognito/monitoring-username" with
  | .error e => (.error e, [])
  | .ok username =>
    match dictGetE cognito_info "/unity/shared-services/cognito/monitoring-password" with
    | .error e => (.error e, [])
    | .ok password =>
      match dictGetE cognito_info "/unity/shared-services/dapa/client-id" with
      | .error e => (.error e, [])
      | .ok client_id =>
        match client.initiateAuth username password client_id with
        | .error e => (.error e, [(username, password, client_id)])
        | .ok token => (.ok token, [(username, password, client_id)])

/-! ## `check_service_health` -/

/-- One health-check result: status, HTTP response code rendered as a
string (or `"N/A"`), and the probe timestamp. -/
structure HealthCheckEntry where
  status : String
  httpResponseCode : String
  date : String

/-- One record of the report, mirroring the dictionary appended per
service.  Fields read with plain `.get(key)` are `Option JVal` (`none`
is Python `None`); the three fields read with `.get(key, "EMPTY")`
carry their default. -/
structure HealthRecord where
  componentName : Option JVal
  componentCategory : JVal
  componentType : JVal
  description : JVal
  ssmKey : String
  healthCheckUrl : Option JVal
  landingPageUrl : Option JVal
  healthChecks : List HealthCheckEntry

/-- The aggregated report: the dictionary `{"services": [...]}`. -/
structure HealthReport where
  services : List HealthRecord

/-- Oracles used by the prober: `json.loads`, `requests.get` (fed the
`healthCheckUrl` value, which may be any JSON value or `None`, plus the
access token carried in the `Authorization` header), and
`datetime.now().isoformat()`. -/
structure ProbeEnv where
  loads : String → Except String JVal
  httpGet : Option JVal → String → Except String Nat
  now : String

/-- The body of the `check_service_health` loop for one entry
`(ssm_key, service_info)`.  `json.loads` failures and `.get` on a
non-object propagate; probe (HTTP) failures are caught and recorded as
UNHEALTHY / "N/A". -/
def probeOne (env : ProbeEnv) (ssm_key service_info access_token : String) :
    Except String HealthRecord :=
  match env.loads service_info with
  | .error e => .error e
  | .ok parsed =>
    match parsed with
    | .obj fields =>
      let service_name := alookup fields "componentName"
      let health_check_url := alookup fields "healthCheckUrl"
      let landing_page_url := alookup fields "landingPageUrl"
      let component_category := (alookup fields "componentCategory").getD (JVal.str "EMPTY")
      let component_type := (alookup fields "componentType").getD (JVal.str "EMPTY")
      let descr := (alookup fields "description").getD (JVal.str "EMPTY")
      let probe := env.httpGet health_check_url access_token
      let status :=
        match probe with
        | .ok code => if code = 200 then "HEALTHY" else "UNHEALTHY"
        | .error _ => "UNHEALTHY"
      let http_response_code :=
        match probe with
        | .ok code => toString code
        | .error _ => "N/A"
      .ok {
        componentName := service_name
        componentCategory := component_category
        componentType := component_type
        description := descr
        ssmKey := ssm_key
        healthCheckUrl := health_check_url
        landingPageUrl := landing_page_url
        healthChecks := [{ status := status,
                           httpResponseCode := http_response_code,
                           date := env.now }]
      }
    | _ => .error ("AttributeError: value for " ++ ssm_key ++ " is not an object")

/-- The `for ssm_key, service_info in service_infos.items()` loop:
records accumulate in iteration order; a raised exception (parse
failure) discards the partial list and propagates. -/
def checkLoop (env : ProbeEnv) (access_token : String) :
    List (String × String) → Except String (List HealthRecord)
  | [] => .ok []
  | (ssm_key, service_info) :: rest =>
    match probeOne env ssm_key service_info access_token with
    | .error e => .error e
    | .ok record =>
      match checkLoop env access_token rest with
      | .error e => .error e
      | .ok records => .ok (record :: records)

/-- `check_service_health(service_infos, access_token)`. -/
def check_service_health (env : ProbeEnv) (service_infos : ParamDict)
    (access_token : String) : Except String HealthReport :=
  match checkLoop env access_token service_infos with
  | .error e => .error e
  | .ok records => .ok { services := records }

/-! ## `upload_json_to_s3` -/

/-- One performed `put_object` call. -/
structure S3Put where
  bucket : String
  key : String
  body : String
  contentType : String

/-- Oracle for the S3 client: `put_object(Bucket, Key, Body, ContentType)`. -/
structure S3Client where
  putObject : String → String → String → String → Except String Unit

/-- `upload_json_to_s3(json_data, bucket_name, object_name)`.  `dumps`
is the `json.dumps(.., indent=4)` serializer (an oracle; a raised
serialization error is caught by the same `try`).  Returns the
`(success, message)` pair of the source plus the list of `put_object`
calls performed, in order.  All provider errors are converted to
`(False, str(e))`; nothing propagates. -/
def upload_json_to_s3 (dumps : HealthReport → Except String String)
    (s3 : S3Client) (json_data : HealthReport) (bucket_name object_name : String) :
    (Bool × String) × List S3Put :=
  match dumps json_data with
  | .error e => ((false, e), [])
  | .ok json_string =>
    match s3.putObject bucket_name object_name json_string "application/json" with
    | .error e =>
      ((false, e), [⟨bucket_name, object_name, json_string, "application/json"⟩])
    | .ok _ =>
      match s3.putObject bucket_name "health_check_latest.json" json_string
          "application/json" with
      | .error e =>
        ((false, e),
         [⟨bucket_name, object_name, json_string, "application/json"⟩,
          ⟨bucket_name, "health_check_latest.json", json_string, "application/json"⟩])
      | .ok _ =>
        ((true, "JSON uploaded successfully."),
         [⟨bucket_name, object_name, json_string, "application/json"⟩,
          ⟨bucket_name, "health_check_latest.json", json_string, "application/json"⟩])

/-! ## `lambda_handler` -/

/-- The structured result returned by the handler. -/
structure LambdaResponse where
  statusCode : Nat
  body : String
  headers : List (String × String)

/-- All collaborators and ambient inputs of one invocation: the boto3
clients, the JSON parser/serializer, the HTTP client, the clock
(`nowFilename` is `now.strftime("health_check_%Y-%m-%d_%H-%M-%S.json")`),
and the `PROJECT` / `VENUE` environment variables (absent = `None`). -/
structure HandlerEnv where
  ssm : SsmClient
  describePages : PageOracle
  cognito : CognitoClient
  probe : ProbeEnv
  s3 : S3Client
  dumps : HealthReport → Except String String
  project : Option String
  venue : Option String
  nowFilename : String

/-- The three shared Cognito parameter names requested by the handler. -/
def shared_parameters_cognito : List String :=
  ["/unity/shared-services/cognito/monitoring-username",
   "/unity/shared-services/cognito/monitoring-password",
   "/unity/shared-services/dapa/client-id"]

/-- `bucket_name = f"unity-{project}-{venue}-bucket"`. -/
def hv_bucket_name (env : HandlerEnv) : String :=
  "unity-" ++ pyFormat env.project ++ "-" ++ pyFormat env.venue ++ "-bucket"

/-- `cognito_info = get_ssm_parameter_value(shared_parameters_cognito, shared=True)`. -/
def hv_cognito_info (env : HandlerEnv) : ParamDict :=
  (get_ssm_parameter_value env.ssm shared_parameters_cognito true).1

/-- `shared_services_health_ssm = fetch_health_status_ssm_values(True, project, venue)`. -/
def hv_shared_ssm (env : HandlerEnv) : List String :=
  fetch_health_status_ssm_values env.describePages true env.project env.venue

/-- `local_health_ssm = fetch_health_status_ssm_values(False, project, venue)`. -/
def hv_local_ssm (env : HandlerEnv) : List String :=
  fetch_health_status_ssm_values env.describePages false env.project env.venue

/-- `token = create_cognito_client(cognito_info)` (raises propagate). -/
def hv_token (env : HandlerEnv) : Except String String :=
  (create_cognito_client env.cognito (hv_cognito_info env)).1

/-- `shared_services_health_info = get_ssm_parameter_value(shared_services_health_ssm, shared=True)`. -/
def hv_shared_info (env : HandlerEnv) : ParamDict :=
  (get_ssm_parameter_value env.ssm (hv_shared_ssm env) true).1

/-- `local_health_info = get_ssm_parameter_value(local_health_ssm, shared=False)`. -/
def hv_local_info (env : HandlerEnv) : ParamDict :=
  (get_ssm_parameter_value env.ssm (hv_local_ssm env) false).1

/-- `combined_health_info = {**shared_services_health_info, **local_health_info}`. -/
def hv_combined (env : HandlerEnv) : ParamDict :=
  dictUpdate (hv_shared_info env) (hv_local_info env)

/-- The computed report of an invocation:
`health_status = check_service_health(combined_health_info, token)`,
with a failed token exchange propagating. -/
def hv_report (env : HandlerEnv) : Except String HealthReport :=
  match hv_token env with
  | .error e => .error e
  | .ok token => check_service_health env.probe (hv_combined env) token

/-- `lambda_handler(event, context)` (the event and context are unused
by the source).  The upload result is only printed, so it is discarded
here; the uncaught failure points are the token exchange, the probe
loop's parse errors, and the final `json.dumps` of the body. -/
def lambda_handler (env : HandlerEnv) : Except String LambdaResponse :=
  match hv_token env with
  | .error e => .error e
  | .ok token =>
    match check_service_health env.probe (hv_combined env) token with
    | .error e => .error e
    | .ok health_status =>
      let _upload := upload_json_to_s3 env.dumps env.s3 health_status
        (hv_bucket_name env) env.nowFilename
      match env.dumps health_status with
      | .error e => .error e
      | .ok body =>
        .ok { statusCode := 200, body := body,
              headers := [("Content-Type", "application/json")] }

/-! ## Auxiliary facts for the claim theorems -/

theorem toString_200 : toString (200 : Nat) = "200" := rfl

theorem nodup_keysOf_ssmLookupLoop (ssm : SsmClient) :
    ∀ (chunks : List (List String)) (acc : ParamDict), (keysOf acc).Nodup →
      (keysOf (ssmLookupLoop ssm chunks acc).1).Nodup := by
  intro chunks
  induction chunks with
  | nil => intro acc hacc; exact hacc
  | cons chunk rest ih =>
    intro acc hacc
    simp only [ssmLookupLoop]
    cases hresp : ssm.getParameters chunk with
    | ok resp => exact ih _ (nodup_keysOf_dictUpdate _ _ hacc)
    | error e => exact ih _ hacc

theorem nodup_keysOf_get_ssm (ssm : SsmClient) (names : List String) (shared : Bool) :
    (keysOf (get_ssm_parameter_value ssm names shared).1).Nodup := by
  cases shared with
  | false =>
    exact nodup_keysOf_ssmLookupLoop ssm (chunks10 names) [] List.nodup_nil
  | true =>
    simp only [get_ssm_parameter_value, if_pos rfl]
    cases hacct : ssm.getParameter "/unity/shared-services/aws/account" with
    | error e => simp [keysOf]
    | ok account_id => exact nodup_keysOf_ssmLookupLoop ssm _ [] (by simp [keysOf])

/-! ## Claim theorems -/

/-- C1: for every probed service entry (one iteration of the
`check_service_health` loop, `probeOne`) whose value parses as a JSON
object, an HTTP GET returning 200 yields a HEALTHY check with response
code `"200"`; a GET returning any other status code yields UNHEALTHY
with that code rendered as a string; and a GET that raises yields
UNHEALTHY with code `"N/A"`, the probe returning a record rather than
propagating the exception. -/
theorem claim1_probe_classification (env : ProbeEnv)
    (ssm_key service_info access_token : String) (fields : List (String × JVal))
    (hload : env.loads service_info = Except.ok (JVal.obj fields)) :
    (env.httpGet (alookup fields "healthCheckUrl") access_token = Except.ok 200 →
      (probeOne env ssm_key service_info access_token).toOption.map
          (fun r => r.healthChecks)
        = some [⟨"HEALTHY", "200", env.now⟩]) ∧
    (∀ code, env.httpGet (alookup fields "healthCheckUrl") access_token = Except.ok code →
      code ≠ 200 →
      (probeOne env ssm_key service_info access_token).toOption.map
          (fun r => r.healthChecks)
        = some [⟨"UNHEALTHY", toString code, env.now⟩]) ∧
    (∀ e, env.httpGet (alookup fields "healthCheckUrl") access_token = Except.error e →
      (probeOne env ssm_key service_info access_token).toOption.map
          (fun r => r.healthChecks)
        = some [⟨"UNHEALTHY", "N/A", env.now⟩]) := by
  refine ⟨?_, ?_, ?_⟩
  · intro hget
    simp [probeOne, hload, hget, Except.toOption, toString_200]
  · intro code hget hcode
    simp [probeOne, hload, hget, hcode, Except.toOption]
  · intro e hget
    simp [probeOne, hload, hget, Except.toOption]

/-- Demo probe environment for the C1 witness: the descriptor parses to
an object with a health-check URL; three HTTP oracles cover the three
outcomes. -/
def probeDemo200 : ProbeEnv where
  loads := fun _ => .ok (.obj [("healthCheckUrl", .str "http://a/health")])
  httpGet := fun _ _ => .ok 200
  now := "2024-01-01T00:00:00"

def probeDemo503 : ProbeEnv where
  loads := fun _ => .ok (.obj [("healthCheckUrl", .str "http://a/health")])
  httpGet := fun _ _ => .ok 503
  now := "2024-01-01T00:00:00"

def probeDemoErr : ProbeEnv where
  loads := fun _ => .ok (.obj [("healthCheckUrl", .str "http://a/health")])
  httpGet := fun _ _ => .error "ConnectionError"
  now := "2024-01-01T00:00:00"

def demoFields : List (String × JVal) := [("healthCheckUrl", JVal.str "http://a/health")]

theorem claim1_witness :
    probeDemo200.loads "info" = Except.ok (JVal.obj demoFields) ∧
    probeDemo503.loads "info" = Except.ok (JVal.obj demoFields) ∧
    probeDemoErr.loads "info" = Except.ok (JVal.obj demoFields) ∧
    (probeOne probeDemo200 "svc" "info" "tok").toOption.map (fun r => r.healthChecks)
      = some [⟨"HEALTHY", "200", probeDemo200.now⟩] ∧
    (probeOne probeDemo503 "svc" "info" "tok").toOption.map (fun r => r.healthChecks)
      = some [⟨"UNHEALTHY", toString 503, probeDemo503.now⟩] ∧
    (probeOne probeDemoErr "svc" "info" "tok").toOption.map (fun r => r.healthChecks)
      = some [⟨"UNHEALTHY", "N/A", probeDemoErr.now⟩] :=
  ⟨rfl, rfl, rfl,
   (claim1_probe_classification probeDemo200 "svc" "info" "tok" demoFields rfl).1 rfl,
   (claim1_probe_classification probeDemo503 "svc" "info" "tok" demoFields rfl).2.1
     503 rfl (by decide),
   (claim1_probe_classification probeDemoErr "svc" "info" "tok" demoFields rfl).2.2
     "ConnectionError" rfl⟩

/-- C2: for a list of more than 10 parameter names, the resolver issues
exactly `ceil(n/10)` batched `get_parameters` calls, each over at most
10 names, whose concatenation is the input list in order; and the
returned mapping is the left-to-right union of the per-chunk result
mappings of the calls that succeeded, errored chunks omitted. -/
theorem claim2_chunked_lookup (ssm : SsmClient) (parameter_names : List String)
    (_hlen : 10 < parameter_names.length) :
    (get_ssm_parameter_value ssm parameter_names false).2.length
        = (parameter_names.length + 9) / 10 ∧
    (∀ c ∈ (get_ssm_parameter_value ssm parameter_names false).2, c.length ≤ 10) ∧
    (get_ssm_parameter_value ssm parameter_names false).2.flatten = parameter_names ∧
    (get_ssm_parameter_value ssm parameter_names false).1
        = dictUnion (perChunkResults ssm
            (get_ssm_parameter_value ssm parameter_names false).2) := by
  have hcalls : (get_ssm_parameter_value ssm parameter_names false).2
      = chunks10 parameter_names := by
    simp [get_ssm_parameter_value, ssmLookupLoop_calls]
  have hmap : (get_ssm_parameter_value ssm parameter_names false).1
      = (perChunkResults ssm (chunks10 parameter_names)).foldl dictUpdate [] := by
    simp [get_ssm_parameter_value, ssmLookupLoop_map]
  refine ⟨?_, ?_, ?_, ?_⟩
  · rw [hcalls, chunks10_length]
  · rw [hcalls]
    exact fun c hc => chunks10_mem_length_le _ c hc
  · rw [hcalls, chunks10_flatten]
  · rw [hcalls, hmap]
    rfl

/-- Demo SSM oracle: every batch call succeeds and echoes each requested
name with a derived value. -/
def ssmDemo : SsmClient where
  getParameter := fun _ => .ok "123456789012"
  getParameters := fun names => .ok ⟨names.map (fun n => (n, "value-of-" ++ n)), []⟩

def demoNames11 : List String :=
  ["p01", "p02", "p03", "p04", "p05", "p06", "p07", "p08", "p09", "p10", "p11"]

theorem claim2_witness :
    10 < demoNames11.length ∧
    ((get_ssm_parameter_value ssmDemo demoNames11 false).2.length
        = (demoNames11.length + 9) / 10 ∧
     (∀ c ∈ (get_ssm_parameter_value ssmDemo demoNames11 false).2, c.length ≤ 10) ∧
     (get_ssm_parameter_value ssmDemo demoNames11 false).2.flatten = demoNames11 ∧
     (get_ssm_parameter_value ssmDemo demoNames11 false).1
        = dictUnion (perChunkResults ssmDemo
            (get_ssm_parameter_value ssmDemo demoNames11 false).2)) :=
  ⟨by decide, claim2_chunked_lookup ssmDemo demoNames11 (by decide)⟩

/-- C6: when `shared=true` and the account-id parameter resolves, every
name actually looked up (the concatenation of the issued batch calls)
is the input name rewritten to
`arn:aws:ssm:us-west-2:<account>:parameter<name>`; with `shared=false`
the looked-up names are the input names unchanged. -/
theorem claim6_shared_rewrite (ssm : SsmClient) (parameter_names : List String)
    (account_id : String)
    (hacct : ssm.getParameter "/unity/shared-services/aws/account"
        = Except.ok account_id) :
    (get_ssm_parameter_value ssm parameter_names true).2.flatten
        = parameter_names.map (fun name =>
            "arn:aws:ssm:us-west-2:" ++ account_id ++ ":parameter" ++ name) ∧
    (get_ssm_parameter_value ssm parameter_names false).2.flatten
        = parameter_names := by
  constructor
  · simp [get_ssm_parameter_value, hacct, ssmLookupLoop_calls, chunks10_flatten]
  · simp [get_ssm_parameter_value, ssmLookupLoop_calls, chunks10_flatten]

theorem claim6_witness :
    ssmDemo.getParameter "/unity/shared-services/aws/account"
        = Except.ok "123456789012" ∧
    (get_ssm_parameter_value ssmDemo ["/unity/a", "/unity/b"] true).2.flatten
        = ["/unity/a", "/unity/b"].map (fun name =>
            "arn:aws:ssm:us-west-2:" ++ "123456789012" ++ ":parameter" ++ name) ∧
    (get_ssm_parameter_value ssmDemo ["/unity/a", "/unity/b"] false).2.flatten
        = ["/unity/a", "/unity/b"] :=
  ⟨rfl, claim6_shared_rewrite ssmDemo ["/unity/a", "/unity/b"] "123456789012" rfl⟩

/-- Probe environment in which `json.loads` raises on every value
(e.g. the stored value is not JSON), while the HTTP layer would
succeed.  Exhibits that a parse failure aborts `check_service_health`. -/
def probeParseFail : ProbeEnv where
  loads := fun _ => .error "Expecting value: line 1 column 1 (char 0)"
  httpGet := fun _ _ => .ok 200
  now := "2024-01-01T00:00:00"

/-- C3 counterexample: on a two-entry mapping whose first value does not
parse, `check_service_health` propagates the parse exception instead of
returning a report with one record per entry — an individual entry
failure of this kind does abort the remaining entries. -/
theorem claim3_counterexample :
    check_service_health probeParseFail [("keyA", "not json"), ("keyB", "not json")] "tok"
        = Except.error "Expecting value: line 1 column 1 (char 0)" ∧
    (check_service_health probeParseFail
        [("keyA", "not json"), ("keyB", "not json")] "tok").toOption.map
        (fun rep => rep.services.length) ≠ some 2 := by
  refine ⟨rfl, ?_⟩
  have h : (check_service_health probeParseFail
      [("keyA", "not json"), ("keyB", "not json")] "tok").toOption.map
      (fun rep => rep.services.length) = none := rfl
  rw [h]
  simp

/-- C3 (amended): when every entry's value parses as a JSON object,
`check_service_health` returns a report with exactly one record per
entry of the mapping, whatever each HTTP probe does — probe failures
never abort the loop.  (As stated the claim is false: a value that does
not parse raises out of `check_service_health`, see the
counterexample.) -/
theorem claim3_probe_isolation (env : ProbeEnv) (service_infos : ParamDict)
    (access_token : String)
    (hparse : ∀ kv ∈ service_infos,
      ∃ fields, env.loads kv.2 = Except.ok (JVal.obj fields)) :
    (check_service_health env service_infos access_token).toOption.map
        (fun rep => rep.services.length) = some service_infos.length := by
  induction service_infos with
  | nil => rfl
  | cons kv rest ih =>
    obtain ⟨k, v⟩ := kv
    obtain ⟨fields, hf⟩ := hparse (k, v) (List.mem_cons_self _ _)
    have ih' := ih (fun kv hkv => hparse kv (List.mem_cons_of_mem _ hkv))
    have hone : ∃ r, probeOne env k v access_token = Except.ok r := by
      simp only [probeOne, hf]
      exact ⟨_, rfl⟩
    obtain ⟨r, hr⟩ := hone
    simp only [check_service_health, checkLoop, hr] at ih' ⊢
    cases hrest : checkLoop env access_token rest with
    | error e =>
      rw [hrest] at ih'
      simp [Except.toOption] at ih'
    | ok records =>
      rw [hrest] at ih'
      have hlen : records.length = rest.length := by
        simpa [Except.toOption] using ih'
      simp [Except.toOption, hlen]

/-- Probe environment for the C3 witness: every value parses to an
empty JSON object and every HTTP probe raises, yet the loop completes. -/
def probeAllRaise : ProbeEnv where
  loads := fun _ => .ok (.obj [])
  httpGet := fun _ _ => .error "ReadTimeout"
  now := "2024-01-01T00:00:00"

theorem claim3_witness :
    (∀ kv ∈ ([("keyA", "{}"), ("keyB", "{}")] : ParamDict),
      ∃ fields, probeAllRaise.loads kv.2 = Except.ok (JVal.obj fields)) ∧
    (check_service_health probeAllRaise [("keyA", "{}"), ("keyB", "{}")] "tok").toOption.map
        (fun rep => rep.services.length)
      = some ([("keyA", "{}"), ("keyB", "{}")] : ParamDict).length :=
  ⟨fun _ _ => ⟨[], rfl⟩,
   claim3_probe_isolation probeAllRaise [("keyA", "{}"), ("keyB", "{}")] "tok"
     (fun _ _ => ⟨[], rfl⟩)⟩

/-- Page oracle that returns the same parameter name on two consecutive
pages (the listing API is an external collaborator; nothing in the code
deduplicates across pages). -/
def pagesDup : PageOracle := fun _ _ =>
  [["/unity/shared-services/component/x"], ["/unity/shared-services/component/x"]]

/-- C7 counterexample: when the provider returns the same key on two
pages, `fetch_health_status_ssm_values` returns it twice — the result
is not duplicate-free for every sequence of listing pages. -/
theorem claim7_counterexample :
    fetch_health_status_ssm_values pagesDup true none none
        = ["/unity/shared-services/component/x", "/unity/shared-services/component/x"] ∧
    ¬ (fetch_health_status_ssm_values pagesDup true none none).Nodup := by
  refine ⟨rfl, ?_⟩
  intro h
  have h12 := List.nodup_cons.mp h
  exact h12.1 (List.mem_singleton.mpr rfl)

/-- C7 (amended): both scanners return only names starting with the
flag-dependent prefix; an empty listing yields an empty list, not an
error; and the result is duplicate-free whenever the provider's pages
taken together repeat no name (as stated, the claim's unconditional
no-duplicates part is false — the code performs no deduplication, see
the counterexample). -/
theorem claim7_scanner (describePages : PageOracle) (project venue : Option String)
    (shared_ssm : Bool) :
    (∀ k ∈ fetch_health_status_ssm_values describePages shared_ssm project venue,
      pyStartswith
        (if shared_ssm then "/unity/shared-services/component/"
         else "/unity/" ++ pyFormat project ++ "/" ++ pyFormat venue ++ "/component/")
        k = true) ∧
    (describePages
        (if shared_ssm then "/unity/shared-services/component/"
         else "/unity/" ++ pyFormat project ++ "/" ++ pyFormat venue ++ "/component/")
        shared_ssm = [] →
      fetch_health_status_ssm_values describePages shared_ssm project venue = []) ∧
    ((describePages
        (if shared_ssm then "/unity/shared-services/component/"
         else "/unity/" ++ pyFormat project ++ "/" ++ pyFormat venue ++ "/component/")
        shared_ssm).flatten.Nodup →
      (fetch_health_status_ssm_values describePages shared_ssm project venue).Nodup) ∧
    (∀ k ∈ fetch_services_health_status describePages shared_ssm,
      pyStartswith
        (if shared_ssm then "/unity/healthCheck/shared-services/"
         else "/unity/healthCheck/") k = true) ∧
    (describePages
        (if shared_ssm then "/unity/healthCheck/shared-services/"
         else "/unity/healthCheck/") shared_ssm = [] →
      fetch_services_health_status describePages shared_ssm = []) ∧
    ((describePages
        (if shared_ssm then "/unity/healthCheck/shared-services/"
         else "/unity/healthCheck/") shared_ssm).flatten.Nodup →
      (fetch_services_health_status describePages shared_ssm).Nodup) := by
  refine ⟨?_, ?_, ?_, ?_, ?_, ?_⟩
  · intro k hk
    exact (List.mem_filter.mp hk).2
  · intro hempty
    simp [fetch_health_status_ssm_values, hempty]
  · intro hnodup
    exact hnodup.filter _
  · intro k hk
    exact (List.mem_filter.mp hk).2
  · intro hempty
    simp [fetch_services_health_status, hempty]
  · intro hnodup
    exact hnodup.filter _

/-- Page oracle for the C7 witness: one page, two distinct names, one of
which does not carry the expected name prefix. -/
def pagesDemo : PageOracle := fun _ _ =>
  [["/unity/shared-services/component/x", "/other/y"]]

/-- Page oracle returning no pages at all. -/
def pagesEmpty : PageOracle := fun _ _ => []

theorem claim7_witness :
    (∀ k ∈ fetch_health_status_ssm_values pagesDemo true none none,
      pyStartswith "/unity/shared-services/component/" k = true) ∧
    (fetch_health_status_ssm_values pagesEmpty true none none = []) ∧
    (fetch_health_status_ssm_values pagesDemo true none none).Nodup ∧
    (fetch_services_health_status pagesEmpty true = []) := by
  refine ⟨?_, ?_, ?_, ?_⟩
  · exact (claim7_scanner pagesDemo none none true).1
  · exact (claim7_scanner pagesEmpty none none true).2.1 rfl
  · exact (claim7_scanner pagesDemo none none true).2.2.1 (by decide)
  · exact (claim7_scanner pagesEmpty none none true).2.2.2.2.1 rfl

/-- Probe environment whose values all parse to the empty JSON object
(every optional descriptor field absent). -/
def probeEmptyObj : ProbeEnv where
  loads := fun _ => .ok (.obj [])
  httpGet := fun _ _ => .ok 200
  now := "2024-01-01T00:00:00"

/-- C8 counterexample: with every optional field absent, the record
carries `"EMPTY"` for category, type and description but `None` (not
`"EMPTY"`) for the landing-page URL — `.get("landingPageUrl")` has no
default in the source. -/
theorem claim8_counterexample :
    (probeOne probeEmptyObj "svc" "{}" "tok").toOption.map
        (fun r => (r.componentCategory, r.componentType, r.description, r.landingPageUrl))
      = some (JVal.str "EMPTY", JVal.str "EMPTY", JVal.str "EMPTY", none) ∧
    (probeOne probeEmptyObj "svc" "{}" "tok").toOption.map (fun r => r.landingPageUrl)
      ≠ some (some (JVal.str "EMPTY")) := by
  refine ⟨rfl, ?_⟩
  have h : (probeOne probeEmptyObj "svc" "{}" "tok").toOption.map
      (fun r => r.landingPageUrl) = some none := rfl
  rw [h]
  simp

/-- C8 (amended): for any parsed descriptor, each absent optional field
among component category, component type and description — each on its
own, whatever the other fields hold — appears in the record as the
sentinel `"EMPTY"`; an absent landing-page URL appears as `None`
(JSON `null`), not `"EMPTY"`. -/
theorem claim8_defaults (env : ProbeEnv) (ssm_key service_info access_token : String)
    (fields : List (String × JVal))
    (hload : env.loads service_info = Except.ok (JVal.obj fields)) :
    (alookup fields "componentCategory" = none →
      (probeOne env ssm_key service_info access_token).toOption.map
          (fun r => r.componentCategory) = some (JVal.str "EMPTY")) ∧
    (alookup fields "componentType" = none →
      (probeOne env ssm_key service_info access_token).toOption.map
          (fun r => r.componentType) = some (JVal.str "EMPTY")) ∧
    (alookup fields "description" = none →
      (probeOne env ssm_key service_info access_token).toOption.map
          (fun r => r.description) = some (JVal.str "EMPTY")) ∧
    (alookup fields "landingPageUrl" = none →
      (probeOne env ssm_key service_info access_token).toOption.map
          (fun r => r.landingPageUrl) = some none) := by
  refine ⟨?_, ?_, ?_, ?_⟩
  · intro hcat
    simp [probeOne, hload, hcat, Except.toOption]
  · intro htyp
    simp [probeOne, hload, htyp, Except.toOption]
  · intro hdesc
    simp [probeOne, hload, hdesc, Except.toOption]
  · intro hland
    simp [probeOne, hload, hland, Except.toOption]

/-- Probe environment whose descriptor has only `description` absent:
exercises one per-field default independently of the others. -/
def probeOnlyDescAbsent : ProbeEnv where
  loads := fun _ => .ok (.obj
    [("componentName", .str "svcA"),
     ("healthCheckUrl", .str "http://a/health"),
     ("landingPageUrl", .str "http://a/"),
     ("componentCategory", .str "cat"),
     ("componentType", .str "typ")])
  httpGet := fun _ _ => .ok 200
  now := "2024-01-01T00:00:00"

def demoFieldsDescAbsent : List (String × JVal) :=
  [("componentName", JVal.str "svcA"),
   ("healthCheckUrl", JVal.str "http://a/health"),
   ("landingPageUrl", JVal.str "http://a/"),
   ("componentCategory", JVal.str "cat"),
   ("componentType", JVal.str "typ")]

theorem claim8_witness :
    probeEmptyObj.loads "{}" = Except.ok (JVal.obj []) ∧
    probeOnlyDescAbsent.loads "info" = Except.ok (JVal.obj demoFieldsDescAbsent) ∧
    alookup ([] : List (String × JVal)) "componentCategory" = none ∧
    alookup demoFieldsDescAbsent "description" = none ∧
    alookup ([] : List (String × JVal)) "landingPageUrl" = none ∧
    (probeOne probeEmptyObj "svc" "{}" "tok").toOption.map
        (fun r => r.componentCategory) = some (JVal.str "EMPTY") ∧
    (probeOne probeOnlyDescAbsent "svc" "info" "tok").toOption.map
        (fun r => r.description) = some (JVal.str "EMPTY") ∧
    (probeOne probeEmptyObj "svc" "{}" "tok").toOption.map
        (fun r => r.landingPageUrl) = some none :=
  ⟨rfl, rfl, rfl, rfl, rfl,
   (claim8_defaults probeEmptyObj "svc" "{}" "tok" [] rfl).1 rfl,
   (claim8_defaults probeOnlyDescAbsent "svc" "info" "tok"
     demoFieldsDescAbsent rfl).2.2.1 rfl,
   (claim8_defaults probeEmptyObj "svc" "{}" "tok" [] rfl).2.2.2 rfl⟩

/-- C9: if any of the three expected credential keys is absent from the
mapping, `create_cognito_client` propagates an error (a `KeyError`),
performs no `initiate_auth` call, and returns no token. -/
theorem claim9_missing_credentials (client : CognitoClient) (cognito_info : ParamDict)
    (hmissing :
      alookup cognito_info "/unity/shared-services/cognito/monitoring-username" = none ∨
      alookup cognito_info "/unity/shared-services/cognito/monitoring-password" = none ∨
      alookup cognito_info "/unity/shared-services/dapa/client-id" = none) :
    (create_cognito_client client cognito_info).1.toOption = none ∧
    (create_cognito_client client cognito_info).2 = [] := by
  rcases hmissing with h1 | h2 | h3
  · simp [create_cognito_client, dictGetE, h1, Except.toOption]
  · cases h1 : alookup cognito_info "/unity/shared-services/cognito/monitoring-username" with
    | none => simp [create_cognito_client, dictGetE, h1, Except.toOption]
    | some u => simp [create_cognito_client, dictGetE, h1, h2, Except.toOption]
  · cases h1 : alookup cognito_info "/unity/shared-services/cognito/monitoring-username" with
    | none => simp [create_cognito_client, dictGetE, h1, Except.toOption]
    | some u =>
      cases h2 : alookup cognito_info "/unity/shared-services/cognito/monitoring-password" with
      | none => simp [create_cognito_client, dictGetE, h1, h2, Except.toOption]
      | some p => simp [create_cognito_client, dictGetE, h1, h2, h3, Except.toOption]

/-- Demo Cognito oracle that would hand out a token if called. -/
def cognitoDemo : CognitoClient where
  initiateAuth := fun _ _ _ => .ok "access-token"

theorem claim9_witness :
    alookup ([] : ParamDict) "/unity/shared-services/cognito/monitoring-username" = none ∧
    (create_cognito_client cognitoDemo []).1.toOption = none ∧
    (create_cognito_client cognitoDemo []).2 = [] :=
  ⟨rfl,
   (claim9_missing_credentials cognitoDemo [] (Or.inl rfl)).1,
   (claim9_missing_credentials cognitoDemo [] (Or.inl rfl)).2⟩

/-- C4: `upload_json_to_s3` serializes the report once; when
serialization and both stores succeed it performs exactly two
`put_object` calls with identical bodies — one under the given object
name, one under `"health_check_latest.json"`, both with JSON content
type — and returns `(True, success message)`; and it never raises: an
error raised by the serializer or by either put is caught and converted
to `(False, <error text>)`. -/
theorem claim4_upload (dumps : HealthReport → Except String String) (s3 : S3Client)
    (json_data : HealthReport) (bucket_name object_name : String) :
    (∀ e, dumps json_data = Except.error e →
      upload_json_to_s3 dumps s3 json_data bucket_name object_name
        = ((false, e), [])) ∧
    (∀ json_string, dumps json_data = Except.ok json_string →
      (∀ e, s3.putObject bucket_name object_name json_string "application/json"
          = Except.error e →
        upload_json_to_s3 dumps s3 json_data bucket_name object_name
          = ((false, e),
             [⟨bucket_name, object_name, json_string, "application/json"⟩])) ∧
      (s3.putObject bucket_name object_name json_string "application/json"
          = Except.ok () →
        (∀ e, s3.putObject bucket_name "health_check_latest.json" json_string
            "application/json" = Except.error e →
          upload_json_to_s3 dumps s3 json_data bucket_name object_name
            = ((false, e),
               [⟨bucket_name, object_name, json_string, "application/json"⟩,
                ⟨bucket_name, "health_check_latest.json", json_string,
                 "application/json"⟩])) ∧
        (s3.putObject bucket_name "health_check_latest.json" json_string
            "application/json" = Except.ok () →
          upload_json_to_s3 dumps s3 json_data bucket_name object_name
            = ((true, "JSON uploaded successfully."),
               [⟨bucket_name, object_name, json_string, "application/json"⟩,
                ⟨bucket_name, "health_check_latest.json", json_string,
                 "application/json"⟩])))) := by
  refine ⟨?_, ?_⟩
  · intro e he
    simp [upload_json_to_s3, he]
  · intro json_string hs
    refine ⟨?_, ?_⟩
    · intro e he
      simp [upload_json_to_s3, hs, he]
    · intro hput1
      refine ⟨?_, ?_⟩
      · intro e he
        simp [upload_json_to_s3, hs, hput1, he]
      · intro hput2
        simp [upload_json_to_s3, hs, hput1, hput2]

/-- Always-succeeding S3 oracle. -/
def s3Demo : S3Client where
  putObject := fun _ _ _ _ => .ok ()

/-- Demo serializer standing for `json.dumps(.., indent=4)`. -/
def dumpsDemo : HealthReport → Except String String := fun _ => .ok "SERIALIZED"

def reportDemo : HealthReport := ⟨[]⟩

theorem claim4_witness :
    dumpsDemo reportDemo = Except.ok "SERIALIZED" ∧
    s3Demo.putObject "bkt" "obj.json" "SERIALIZED" "application/json" = Except.ok () ∧
    s3Demo.putObject "bkt" "health_check_latest.json" "SERIALIZED" "application/json"
      = Except.ok () ∧
    upload_json_to_s3 dumpsDemo s3Demo reportDemo "bkt" "obj.json"
      = ((true, "JSON uploaded successfully."),
         [⟨"bkt", "obj.json", "SERIALIZED", "application/json"⟩,
          ⟨"bkt", "health_check_latest.json", "SERIALIZED", "application/json"⟩]) :=
  ⟨rfl, rfl, rfl,
   ((((claim4_upload dumpsDemo s3Demo reportDemo "bkt" "obj.json").2
       "SERIALIZED" rfl).2 rfl).2 rfl)⟩

/-- C5: whenever `lambda_handler` returns (rather than terminating with
an unrecovered exception), the response is
`{statusCode: 200, body: <JSON text of the computed report>, headers:
{Content-Type: application/json}}`; and the publish outcome is never
reflected in it — replacing the S3 collaborator by any other (including
an always-failing one) leaves the returned value unchanged. -/
theorem claim5_handler_response (env : HandlerEnv) (resp : LambdaResponse)
    (h : lambda_handler env = Except.ok resp) :
    resp.statusCode = 200 ∧
    resp.headers = [("Content-Type", "application/json")] ∧
    (hv_report env).toOption.bind (fun rep => (env.dumps rep).toOption)
      = some resp.body ∧
    ∀ s3c : S3Client, lambda_handler { env with s3 := s3c } = Except.ok resp := by
  have hswap : ∀ s3c : S3Client,
      lambda_handler { env with s3 := s3c } = lambda_handler env := by
    intro s3c
    rfl
  cases htok : hv_token env with
  | error e =>
    simp only [lambda_handler, htok] at h
    exact Except.noConfusion h
  | ok token =>
    cases hchk : check_service_health env.probe (hv_combined env) token with
    | error e =>
      simp only [lambda_handler, htok, hchk] at h
      exact Except.noConfusion h
    | ok health_status =>
      cases hdump : env.dumps health_status with
      | error e =>
        simp only [lambda_handler, htok, hchk, hdump] at h
        exact Except.noConfusion h
      | ok body =>
        simp only [lambda_handler, htok, hchk, hdump, Except.ok.injEq] at h
        subst h
        refine ⟨rfl, rfl, ?_, ?_⟩
        · simp only [hv_report, htok, hchk]
          simp [Except.toOption, hdump]
        · intro s3c
          rw [hswap s3c]
          simp only [lambda_handler, htok, hchk, hdump]

/-- Demo invocation environment in which every collaborator succeeds:
the parameter store returns the three Cognito credentials for any batch
call, discovery returns no services, and serialization and storage
succeed. -/
def handlerDemo : HandlerEnv where
  ssm :=
    { getParameter := fun _ => .ok "123456789012"
      getParameters := fun _ => .ok
        ⟨[("/unity/shared-services/cognito/monitoring-username", "user"),
          ("/unity/shared-services/cognito/monitoring-password", "pass"),
          ("/unity/shared-services/dapa/client-id", "client")], []⟩ }
  describePages := pagesEmpty
  cognito := cognitoDemo
  probe := probeEmptyObj
  s3 := s3Demo
  dumps := fun _ => .ok "SERIALIZED-REPORT"
  project := some "proj"
  venue := some "dev"
  nowFilename := "health_check_2024-01-01_00-00-00.json"

def handlerDemoResp : LambdaResponse :=
  ⟨200, "SERIALIZED-REPORT", [("Content-Type", "application/json")]⟩

theorem claim5_witness :
    lambda_handler handlerDemo = Except.ok handlerDemoResp ∧
    (handlerDemoResp.statusCode = 200 ∧
     handlerDemoResp.headers = [("Content-Type", "application/json")] ∧
     (hv_report handlerDemo).toOption.bind
         (fun rep => (handlerDemo.dumps rep).toOption)
       = some handlerDemoResp.body ∧
     ∀ s3c : S3Client,
       lambda_handler { handlerDemo with s3 := s3c } = Except.ok handlerDemoResp) :=
  ⟨rfl, claim5_handler_response handlerDemo handlerDemoResp rfl⟩

/-- C10: the combined mapping passed to the prober by `lambda_handler`
iterates the shared-services entries first (in their order) followed by
the local-only entries (in theirs); every entry of either input is
present, and a key occurring in both resolves to the local value. -/
theorem claim10_combined_merge (env : HandlerEnv) :
    keysOf (hv_combined env)
      = keysOf (hv_shared_info env)
        ++ keysNotIn (keysOf (hv_local_info env)) (keysOf (hv_shared_info env)) ∧
    ∀ k, alookup (hv_combined env) k
      = (alookup (hv_local_info env) k).or (alookup (hv_shared_info env) k) := by
  have hnodup : (keysOf (hv_local_info env)).Nodup :=
    nodup_keysOf_get_ssm env.ssm (hv_local_ssm env) false
  simp only [hv_combined]
  constructor
  · exact keysOf_dictUpdate (hv_local_info env) (hv_shared_info env) hnodup
  · intro k
    exact alookup_dictUpdate (hv_local_info env) (hv_shared_info env) k hnodup

theorem claim10_witness :
    keysOf (hv_combined handlerDemo)
      = keysOf (hv_shared_info handlerDemo)
        ++ keysNotIn (keysOf (hv_local_info handlerDemo))
            (keysOf (hv_shared_info handlerDemo)) ∧
    ∀ k, alookup (hv_combined handlerDemo) k
      = (alookup (hv_local_info handlerDemo) k).or
          (alookup (hv_shared_info handlerDemo) k) :=
  claim10_combined_merge handlerDemo

end Unity
